import Mathlib

/-!
Verification of the lime-plotter data-alignment and marker-search engine
(`frc1678/limeplotter/main.py`) against its natural-language specification.

The Python source is shallowly embedded: pure fragments become Lean
functions, the unbounded `while True` search loop of `mark_xdata` becomes a
fuel-indexed recursion whose fuel exhaustion is a distinguished error, and
Python list indexing (including negative-index wrap-around and the
`IndexError` raised outside `[-len, len)`) is modelled explicitly.
External collaborators (matplotlib, the data-loading classes) are
parameters of the modelled pipeline functions.
-/

deriving instance DecidableEq for Except

namespace LimePlotter

/-! ## Python list access -/

/-- Outcomes of the modelled search loop that are not a normal return:
a Python `IndexError`, or exhaustion of the modelling fuel (the source
loop is `while True`). -/
inductive SearchError : Type
  | indexOutOfRange : SearchError
  | fuelExhausted : SearchError
deriving DecidableEq, Repr

/-- Python list subscript `t[i]`: indices in `[0, len)` read directly,
indices in `[-len, 0)` wrap around to `len + i`, anything else raises
`IndexError`. -/
def pyGet {α : Type} (t : List α) (i : Int) : Except SearchError α :=
  if h : 0 ≤ i ∧ i < (t.length : Int) then
    .ok (t.get ⟨i.toNat, by omega⟩)
  else if h2 : -(t.length : Int) ≤ i ∧ i < 0 then
    .ok (t.get ⟨(i + (t.length : Int)).toNat, by omega⟩)
  else
    .error .indexOutOfRange

/-! ## The `mark_xdata` inner search loop

Transcription of the body of the `while True:` loop in `mark_xdata`
(main.py lines 236-258).  One fuel unit is consumed per iteration.
The conjunction `t[index] <= x and x < t[index+1]` short-circuits exactly
as in Python: `t[index+1]` is evaluated for the found-check only when
`t[index] <= x` holds, and is evaluated again for the direction test
`t[index+1] <= x` when the found-check fails.  `distance = int(distance/2)`
followed by the `if distance == 0: distance = 1` clamp is `max 1 (d / 2)`
on naturals. -/
def markLoop {α : Type} [LinearOrder α] (t : List α) (x : α) :
    Nat → Int → Nat → Except SearchError Int
  | 0, _, _ => .error .fuelExhausted
  | fuel + 1, index, distance =>
    match pyGet t index with
    | .error e => .error e
    | .ok ti =>
      if ti ≤ x then
        match pyGet t (index + 1) with
        | .error e => .error e
        | .ok ti1 =>
          if x < ti1 then
            .ok index
          else
            match pyGet t (index + 1) with
            | .error e => .error e
            | .ok u =>
              if u ≤ x then
                markLoop t x fuel (index + (max 1 (distance / 2) : Nat)) (max 1 (distance / 2))
              else
                markLoop t x fuel (index - (max 1 (distance / 2) : Nat)) (max 1 (distance / 2))
      else
        match pyGet t (index + 1) with
        | .error e => .error e
        | .ok u =>
          if u ≤ x then
            markLoop t x fuel (index + (max 1 (distance / 2) : Nat)) (max 1 (distance / 2))
          else
            markLoop t x fuel (index - (max 1 (distance / 2) : Nat)) (max 1 (distance / 2))

/-- The nearest-index search of `mark_xdata` for one plot pair: the index
and the jump distance both start at `int(len(t) / 2)`.  The fuel
`2 * t.length + 4` exceeds the number of iterations the loop can perform
on any well-formed input (proved below), so on those inputs the model
never reports `fuelExhausted`. -/
def find_index {α : Type} [LinearOrder α] (t : List α) (x : α) : Except SearchError Int :=
  markLoop t x (2 * t.length + 4) ((t.length / 2 : Nat) : Int) (t.length / 2)

/-! ## The rising-edge threshold-crossing scan

Transcription of the marker-column loop of `main` (main.py lines 513-519):

    is_low = True
    for i in range(0, len(y)):
        if is_low and y[i] > rising_threshold:
            mark_xdata(x[i], marker=marker)   -- an emitted crossing
            is_low = False
        elif y[i] < rising_threshold:
            is_low = True

`detectLoop` collects the loop indices `i` at which a crossing is emitted. -/
def detectLoop {α : Type} [LinearOrder α] (thr : α) : List α → Bool → Nat → List Nat
  | [], _, _ => []
  | v :: rest, is_low, idx =>
    if is_low = true ∧ thr < v then idx :: detectLoop thr rest false (idx + 1)
    else if v < thr then detectLoop thr rest true (idx + 1)
    else detectLoop thr rest is_low (idx + 1)

/-- The rising-edge detector over one y-series. -/
def detect_crossings {α : Type} [LinearOrder α] (y : List α) (thr : α) : List Nat :=
  detectLoop thr y true 0

/-- One step of the specification's description of the scan: maintain a
boolean below-threshold state (with the running index and the emitted
crossings); when the state is true and the value strictly exceeds the
threshold, emit the index and flip the state to false; when the value is
strictly below the threshold, re-arm. -/
def specScanStep {α : Type} [LinearOrder α] (thr : α) (s : Bool × Nat × List Nat) (v : α) :
    Bool × Nat × List Nat :=
  if s.1 = true ∧ thr < v then (false, s.2.1 + 1, s.2.2 ++ [s.2.1])
  else if v < thr then (true, s.2.1 + 1, s.2.2)
  else (s.1, s.2.1 + 1, s.2.2)

/-- The specification's left-to-right scan with below-threshold state
initialized to true, returning the emitted crossing indices. -/
def specDetect {α : Type} [LinearOrder α] (y : List α) (thr : α) : List Nat :=
  (y.foldl (specScanStep thr) (true, 0, [])).2.2

/-! ## Python dictionaries, the plot-spec builders, and error values -/

/-- Values stored in the modelled Python dictionaries. -/
inductive PyVal : Type
  | str : String → PyVal
  | pynone : PyVal
  | dict : List (String × PyVal) → PyVal

/-- A Python dictionary as an insertion-ordered association list (all the
dictionaries built by the source use pairwise-distinct keys). -/
abbrev Dict : Type := List (String × PyVal)

/-- Dictionary key lookup, `d[k]` / `k in d`. -/
def dictLookup (d : Dict) (k : String) : Option PyVal :=
  match d with
  | [] => none
  | (k2, v) :: rest => if k2 = k then some v else dictLookup rest k

/-- The ordered key list of a dictionary. -/
def dictKeys (d : Dict) : List String :=
  d.map Prod.fst

/-- Python exceptions raised by the modelled fragments. -/
inductive PyErr : Type
  | keyError : String → PyErr
  | valueError : String → PyErr
deriving DecidableEq

/-- Python `pair.find(",")`: index of the first occurrence, `-1` when
absent. -/
def pyFind (s : String) (c : Char) : Int :=
  if c ∈ s.data then (s.data.indexOf c : Int) else -1

/-- The pair-token parse of `create_subplots_from_arguments`
(main.py lines 299-305): when the token contains a comma, `x` is the slice
before the first comma and `y` the slice after it; otherwise `x` is the
literal `"timestamp"` and `y` the whole token. -/
def parsePlotPair (pair : String) : String × String :=
  if pyFind pair ',' ≠ -1 then
    (⟨pair.data.take (pair.data.indexOf ',')⟩, ⟨pair.data.drop (pair.data.indexOf ',' + 1)⟩)
  else
    ("timestamp", pair)

/-- The entry dictionary `{'x': x, 'y': y}` appended by
`create_subplots_from_arguments` for one pair token. -/
def mkArgEntry (pair : String) : Dict :=
  [("x", PyVal.str (parsePlotPair pair).1), ("y", PyVal.str (parsePlotPair pair).2)]

/-- The token loop of `create_subplots_from_arguments`: `current` is the
subplot entries accumulated since the last separator; a `"/"` token closes
it and starts a new one. -/
def argsLoop : List String → List Dict → List (List Dict)
  | [], current => [current]
  | pair :: rest, current =>
    if pair = "/" then current :: argsLoop rest []
    else argsLoop rest (current ++ [mkArgEntry pair])

/-- `create_subplots_from_arguments` (main.py lines 289-308). -/
def create_subplots_from_arguments (arguments : List String) : List (List Dict) :=
  argsLoop arguments []

/-- The per-entry body of `create_subplots_from_yaml` (main.py lines
274-286): `x` defaults to `'timestamp'` when absent, `entry['y']` raises
`KeyError` when absent, `table` defaults to `None`, and the produced plot
entry is `{'x': x, 'y': y, 'table': table, 'options': entry}`. -/
def yamlEntryToPlot (entry : Dict) : Except PyErr Dict :=
  match dictLookup entry "y" with
  | none => .error (.keyError "y")
  | some y =>
    .ok [("x", match dictLookup entry "x" with
               | some v => v
               | none => PyVal.str "timestamp"),
         ("y", y),
         ("table", match dictLookup entry "table" with
                   | some v => v
                   | none => PyVal.pynone),
         ("options", PyVal.dict entry)]

/-- One subplot of `create_subplots_from_yaml`: the entry list under one
key of `contents['plots']`, processed in order. -/
def yamlSubplot : List Dict → Except PyErr (List Dict)
  | [] => .ok []
  | entry :: rest =>
    match yamlEntryToPlot entry with
    | .error e => .error e
    | .ok plotEntry =>
      match yamlSubplot rest with
      | .error e => .error e
      | .ok rest2 => .ok (plotEntry :: rest2)

/-- `create_subplots_from_yaml` (main.py lines 267-287): the parsed
`contents['plots']` mapping is an insertion-ordered list of
(subplot key, entry list) pairs. -/
def create_subplots_from_yaml (plots : List (String × List Dict)) :
    Except PyErr (List (List Dict)) :=
  match plots with
  | [] => .ok []
  | (_, entries) :: rest =>
    match yamlSubplot entries with
    | .error e => .error e
    | .ok sub =>
      match create_subplots_from_yaml rest with
      | .error e => .error e
      | .ok rest2 => .ok (sub :: rest2)

/-- The spec-building stage of `main` (main.py lines 318-322): flat
arguments win when present, otherwise the YAML tree is used. -/
def buildPlotsStage (plot_pairs : Option (List String))
    (yaml_plots : List (String × List Dict)) : Except PyErr (List (List Dict)) :=
  match plot_pairs with
  | some pairs => .ok (create_subplots_from_arguments pairs)
  | none => create_subplots_from_yaml yaml_plots

/-- `main` up to and including data-source construction (main.py lines
318-337): the subplot list is built first, and only then is the log or
network data source opened (modelled by the collaborator function
`open_data_source`). -/
def mainUpToDataSource {δ : Type} (plot_pairs : Option (List String))
    (yaml_plots : List (String × List Dict))
    (open_data_source : List (List Dict) → Except PyErr δ) : Except PyErr δ :=
  match buildPlotsStage plot_pairs yaml_plots with
  | .error e => .error e
  | .ok plots => open_data_source plots

/-! ## The column resolver and the resolution loop of `main` -/

/-- The column-lookup collaborator: `find_column_identifier` resolves a
plain column name, `find_column_timestamp_identifier` resolves the
timestamp companion of a y column. -/
structure DataSource (ι : Type) : Type where
  find_column_identifier : String → Option ι
  find_column_timestamp_identifier : String → Option ι

/-- The x-identifier resolution of `main` (main.py lines 382-385): the
literal x name `"timestamp"` is resolved through the timestamp-companion
lookup keyed on the entry's y name; any other x name through the plain
lookup. -/
def resolveXident {ι : Type} (ds : DataSource ι) (x y : String) : Option ι :=
  if x = "timestamp" then ds.find_column_timestamp_identifier y
  else ds.find_column_identifier x

/-- Identifier resolution for one plot entry (main.py lines 381-391),
including the two `ValueError` messages raised on failure; the x check
comes first, as in the source. -/
def resolveEntry {ι : Type} (ds : DataSource ι) (x y : String) : Except PyErr (ι × ι) :=
  match resolveXident ds x y with
  | none =>
    .error (.valueError ("failed to find x data for " ++ x ++ " (with y of " ++ y ++ ") "))
  | some xident =>
    match ds.find_column_identifier y with
    | none => .error (.valueError ("failed to find y data for " ++ y))
    | some yident => .ok (xident, yident)

/-- The resolution loop of `main` over all plot entries (given as their
(x name, y name) pairs, in order): the first failing entry aborts. -/
def resolveAll {ι : Type} (ds : DataSource ι) :
    List (String × String) → Except PyErr (List (ι × ι))
  | [] => .ok []
  | (x, y) :: rest =>
    match resolveEntry ds x y with
    | .error e => .error e
    | .ok r =>
      match resolveAll ds rest with
      | .error e => .error e
      | .ok rest2 => .ok (r :: rest2)

/-- The session pipeline of `main`: every entry is resolved before any
data is gathered and anything is plotted (gathering and rendering are
collaborator functions, applied only after resolution succeeds). -/
def plotSession {ι γ δ : Type} (ds : DataSource ι) (entries : List (String × String))
    (gatherStage : List (ι × ι) → γ) (renderStage : γ → δ) : Except PyErr δ :=
  match resolveAll ds entries with
  | .error e => .error e
  | .ok resolved => .ok (renderStage (gatherStage resolved))

/-! ## `gather_new_data` -/

/-- A plot entry at the point `gather_new_data` runs: the fields attached
by the spec builders and the resolution loop, plus the `data` slot written
by gathering (`none` models the key being absent).  The identifier, axis,
options, data-source and data representations are opaque type
parameters. -/
structure PlotEntry (ι κ ο σ δ : Type) : Type where
  x : String
  y : String
  xident : ι
  yident : ι
  axis : κ
  options : ο
  data_source : σ
  data : Option δ

/-- `gather_new_data` (main.py lines 166-171): for each entry, store into
its `data` field the result of `entry['data_source'].gather(xident,
yident, animate)`; the gather call itself is the collaborator function
`gatherFn`. -/
def gather_new_data {ι κ ο σ δ : Type} (gatherFn : σ → ι → ι → Bool → δ)
    (plot_info : List (PlotEntry ι κ ο σ δ)) (animate : Bool) :
    List (PlotEntry ι κ ο σ δ) :=
  plot_info.map (fun e =>
    { e with data := some (gatherFn e.data_source e.xident e.yident animate) })

end LimePlotter

open LimePlotter

/-- In-range Python subscripts read the list directly. -/
theorem pyGet_ok {α : Type} (t : List α) (j : Int) (k : Nat) (hjk : j = (k : Int))
    (hk : k < t.length) : pyGet t j = .ok (t.get ⟨k, hk⟩) := by
  subst hjk
  unfold pyGet
  rw [dif_pos ⟨Int.natCast_nonneg k, by exact_mod_cast hk⟩]
  congr 1

/-- One iteration of the search loop at an in-range index `j = k` with
`k + 1` still in range: either the bracket test succeeds and `j` is
returned, or the loop recurses in the direction given by `t[k+1] <= x`
with the halved-and-clamped distance. -/
theorem markLoop_step {α : Type} [LinearOrder α] (t : List α) (x : α)
    (f : Nat) (j : Int) (D : Nat) (k : Nat) (hjk : j = (k : Int)) (hk1 : k + 1 < t.length) :
    markLoop t x (f + 1) j D =
      if t.get ⟨k, Nat.lt_of_succ_lt hk1⟩ ≤ x ∧ x < t.get ⟨k + 1, hk1⟩ then .ok j
      else if t.get ⟨k + 1, hk1⟩ ≤ x then
        markLoop t x f (j + (max 1 (D / 2) : Nat)) (max 1 (D / 2))
      else
        markLoop t x f (j - (max 1 (D / 2) : Nat)) (max 1 (D / 2)) := by
  have e1 : pyGet t j = .ok (t.get ⟨k, Nat.lt_of_succ_lt hk1⟩) :=
    pyGet_ok t j k hjk (Nat.lt_of_succ_lt hk1)
  have e2 : pyGet t (j + 1) = .ok (t.get ⟨k + 1, hk1⟩) :=
    pyGet_ok t (j + 1) (k + 1) (by omega) hk1
  simp only [markLoop, e1, e2]
  split_ifs <;> first
    | rfl
    | (exfalso; tauto)

/-- With a strictly increasing array and a target bracketed at index `i`,
an element is at most the target exactly when its index is at most `i`. -/
theorem get_le_x_iff {α : Type} [LinearOrder α] (t : List α) (x : α) (i : ℕ)
    (hmono : ∀ p q : Fin t.length, (p : ℕ) < (q : ℕ) → t.get p < t.get q)
    (hi1 : i + 1 < t.length)
    (hxl : t.get ⟨i, Nat.lt_of_succ_lt hi1⟩ ≤ x)
    (hxr : x < t.get ⟨i + 1, hi1⟩)
    (k : ℕ) (hk : k < t.length) :
    t.get ⟨k, hk⟩ ≤ x ↔ k ≤ i := by
  constructor
  · intro hle
    by_contra hgt
    push_neg at hgt
    have h1 : t.get ⟨i + 1, hi1⟩ ≤ t.get ⟨k, hk⟩ := by
      rcases Nat.eq_or_lt_of_le hgt with he | hl
      · have he2 : (⟨i + 1, hi1⟩ : Fin t.length) = ⟨k, hk⟩ := Fin.ext he
        rw [he2]
      · exact le_of_lt (hmono ⟨i + 1, hi1⟩ ⟨k, hk⟩ hl)
    exact absurd hle (not_le_of_lt (lt_of_lt_of_le hxr h1))
  · intro hki
    have h1 : t.get ⟨k, hk⟩ ≤ t.get ⟨i, Nat.lt_of_succ_lt hi1⟩ := by
      rcases Nat.eq_or_lt_of_le hki with he | hl
      · have he2 : (⟨k, hk⟩ : Fin t.length) = ⟨i, Nat.lt_of_succ_lt hi1⟩ := Fin.ext he
        rw [he2]
      · exact le_of_lt (hmono ⟨k, hk⟩ ⟨i, Nat.lt_of_succ_lt hi1⟩ hl)
    exact le_trans h1 hxl

/-- Dual of `get_le_x_iff`: the target is strictly below an element
exactly when that element's index exceeds `i`. -/
theorem x_lt_get_iff {α : Type} [LinearOrder α] (t : List α) (x : α) (i : ℕ)
    (hmono : ∀ p q : Fin t.length, (p : ℕ) < (q : ℕ) → t.get p < t.get q)
    (hi1 : i + 1 < t.length)
    (hxl : t.get ⟨i, Nat.lt_of_succ_lt hi1⟩ ≤ x)
    (hxr : x < t.get ⟨i + 1, hi1⟩)
    (k : ℕ) (hk : k < t.length) :
    x < t.get ⟨k, hk⟩ ↔ i < k := by
  rw [lt_iff_not_le, get_le_x_iff t x i hmono hi1 hxl hxr k hk, Nat.not_le]

/-- Convergence of the search loop.  The invariant carried through the
induction: the index stays inside `[0, len - 2]` (so both subscripts of
each iteration are in range); while the distance `D` is at least 2 the
state also satisfies `D ≤ j` and `j + D ≤ 2 * (len / 2)` (the jump-phase
corridor); and the measure `D + |j - i|` strictly decreases each
iteration, so fuel `D + |j - i| + 1` suffices. -/
theorem markLoop_converges {α : Type} [LinearOrder α] (t : List α) (x : α) (i : ℕ)
    (hmono : ∀ p q : Fin t.length, (p : ℕ) < (q : ℕ) → t.get p < t.get q)
    (hi1 : i + 1 < t.length)
    (hxl : t.get ⟨i, Nat.lt_of_succ_lt hi1⟩ ≤ x)
    (hxr : x < t.get ⟨i + 1, hi1⟩) :
    ∀ (fuel : ℕ) (j : Int) (D : ℕ),
      0 ≤ j → j ≤ (t.length : Int) - 2 → 1 ≤ D →
      (2 ≤ D → ((D : Int) ≤ j ∧ j + (D : Int) ≤ 2 * ((t.length / 2 : ℕ) : Int))) →
      D + (j - (i : Int)).natAbs + 1 ≤ fuel →
      markLoop t x fuel j D = .ok (i : Int) := by
  intro fuel
  induction fuel with
  | zero =>
    intro j D h0 h2 hD hinv hfuel
    omega
  | succ f ih =>
    intro j D h0 h2 hD hinv hfuel
    have hk : j.toNat < t.length := by omega
    have hk1 : j.toNat + 1 < t.length := by omega
    rw [markLoop_step t x f j D j.toNat (by omega) hk1]
    have hle1 : t.get ⟨j.toNat, Nat.lt_of_succ_lt hk1⟩ ≤ x ↔ j.toNat ≤ i :=
      get_le_x_iff t x i hmono hi1 hxl hxr j.toNat (Nat.lt_of_succ_lt hk1)
    have hle2 : t.get ⟨j.toNat + 1, hk1⟩ ≤ x ↔ j.toNat + 1 ≤ i :=
      get_le_x_iff t x i hmono hi1 hxl hxr (j.toNat + 1) hk1
    have hlt2 : x < t.get ⟨j.toNat + 1, hk1⟩ ↔ i < j.toNat + 1 :=
      x_lt_get_iff t x i hmono hi1 hxl hxr (j.toNat + 1) hk1
    have hdcase : (D = 1 ∧ max 1 (D / 2) = 1) ∨ (2 ≤ D ∧ max 1 (D / 2) = D / 2) := by
      rcases Nat.lt_or_ge D 2 with h | h
      · have hD1 : D = 1 := by omega
        subst hD1
        exact Or.inl ⟨rfl, rfl⟩
      · exact Or.inr ⟨h, max_eq_right (by omega)⟩
    rcases lt_trichotomy j (i : Int) with hji | hji | hji
    · have hnf : ¬(t.get ⟨j.toNat, Nat.lt_of_succ_lt hk1⟩ ≤ x ∧ x < t.get ⟨j.toNat + 1, hk1⟩) := by
        rw [hle1, hlt2]
        omega
      rw [if_neg hnf]
      have hdir : t.get ⟨j.toNat + 1, hk1⟩ ≤ x := hle2.mpr (by omega)
      rw [if_pos hdir]
      rcases hdcase with ⟨hD1, hd1⟩ | ⟨hD2, hd2⟩
      · rw [hd1]
        apply ih (j + (1 : ℕ)) 1 (by omega) (by omega) (by omega) (by omega)
        omega
      · rw [hd2]
        have hinv2 := hinv hD2
        apply ih (j + (D / 2 : ℕ)) (D / 2) (by omega) (by omega) (by omega)
        · intro hq
          omega
        · omega
    · have hfound : t.get ⟨j.toNat, Nat.lt_of_succ_lt hk1⟩ ≤ x ∧ x < t.get ⟨j.toNat + 1, hk1⟩ :=
        ⟨hle1.mpr (by omega), hlt2.mpr (by omega)⟩
      rw [if_pos hfound, hji]
    · have hnf : ¬(t.get ⟨j.toNat, Nat.lt_of_succ_lt hk1⟩ ≤ x ∧ x < t.get ⟨j.toNat + 1, hk1⟩) := by
        rw [hle1, hlt2]
        omega
      rw [if_neg hnf]
      have hdir : ¬ t.get ⟨j.toNat + 1, hk1⟩ ≤ x := by
        rw [hle2]
        omega
      rw [if_neg hdir]
      rcases hdcase with ⟨hD1, hd1⟩ | ⟨hD2, hd2⟩
      · rw [hd1]
        apply ih (j - (1 : ℕ)) 1 (by omega) (by omega) (by omega) (by omega)
        omega
      · rw [hd2]
        have hinv2 := hinv hD2
        apply ih (j - (D / 2 : ℕ)) (D / 2) (by omega) (by omega) (by omega)
        · intro hq
          omega
        · omega

/-- A strictly increasing array with the target between its first element
(inclusive) and its last (exclusive) has a bracket index. -/
theorem exists_bracket {α : Type} [LinearOrder α] (t : List α) (x : α)
    (hlen : 2 ≤ t.length)
    (hx0 : t.get ⟨0, by omega⟩ ≤ x)
    (hxlast : x < t.get ⟨t.length - 1, by omega⟩) :
    ∃ i : ℕ, ∃ hi : i + 1 < t.length,
      t.get ⟨i, Nat.lt_of_succ_lt hi⟩ ≤ x ∧ x < t.get ⟨i + 1, hi⟩ := by
  have step : ∀ (d k : ℕ) (hk : k + 1 < t.length), t.length - 2 - k = d →
      t.get ⟨k, Nat.lt_of_succ_lt hk⟩ ≤ x →
      ∃ i : ℕ, ∃ hi : i + 1 < t.length,
        t.get ⟨i, Nat.lt_of_succ_lt hi⟩ ≤ x ∧ x < t.get ⟨i + 1, hi⟩ := by
    intro d
    induction d with
    | zero =>
      intro k hk hkd hkle
      refine ⟨k, hk, hkle, ?_⟩
      have hke : k + 1 = t.length - 1 := by omega
      have he2 : (⟨k + 1, hk⟩ : Fin t.length) = ⟨t.length - 1, by omega⟩ := Fin.ext hke
      rw [he2]
      exact hxlast
    | succ d ihd =>
      intro k hk hkd hkle
      by_cases hlt : x < t.get ⟨k + 1, hk⟩
      · exact ⟨k, hk, hkle, hlt⟩
      · have hk2 : k + 1 + 1 < t.length := by omega
        exact ihd (k + 1) hk2 (by omega) (le_of_not_lt hlt)
  exact step (t.length - 2 - 0) 0 (by omega) rfl hx0

/-- C2 corrected: the claim as stated fails for length-2 arrays.  On the
strictly increasing array `[0, 1]` with the in-range target `1/2` the
search starts at index `1 = len - 1`, the bracket test's first comparison
fails, and the direction test evaluates `t[2]`, raising `IndexError`
instead of terminating at the bracket index 0. -/
theorem C2_counterexample_length_two :
    List.Pairwise (fun a b => a < b) ([0, 1] : List ℚ) ∧
    (0 : ℚ) ≤ mkRat 1 2 ∧ mkRat 1 2 < (1 : ℚ) ∧
    find_index ([0, 1] : List ℚ) (mkRat 1 2) = .error .indexOutOfRange := by
  refine ⟨?_, ?_, ?_, ?_⟩ <;> decide

/-- C2 amended: for every strictly increasing time array of length at
least 3 and every target between the first element (inclusive) and the
last (exclusive), the self-correcting search terminates — the clamped
jump distance always makes progress, and `2 * len + 4` fuel is never
exhausted — and returns exactly the unique index `i` with
`t[i] <= x < t[i+1]`. -/
theorem C2_search_terminates_at_unique_bracket {α : Type} [LinearOrder α]
    (t : List α) (x : α)
    (hlen : 3 ≤ t.length)
    (hmono : ∀ p q : Fin t.length, (p : ℕ) < (q : ℕ) → t.get p < t.get q)
    (hx0 : t.get ⟨0, by omega⟩ ≤ x)
    (hxlast : x < t.get ⟨t.length - 1, by omega⟩) :
    ∃ i : ℕ, ∃ hi : i + 1 < t.length,
      t.get ⟨i, Nat.lt_of_succ_lt hi⟩ ≤ x ∧ x < t.get ⟨i + 1, hi⟩ ∧
      find_index t x = .ok (i : Int) ∧
      ∀ (i2 : ℕ) (h2 : i2 + 1 < t.length),
        t.get ⟨i2, Nat.lt_of_succ_lt h2⟩ ≤ x → x < t.get ⟨i2 + 1, h2⟩ → i2 = i := by
  obtain ⟨i, hi, hxl, hxr⟩ := exists_bracket t x (by omega) hx0 hxlast
  refine ⟨i, hi, hxl, hxr, ?_, ?_⟩
  · unfold find_index
    apply markLoop_converges t x i hmono hi hxl hxr
    · omega
    · omega
    · omega
    · intro hq
      omega
    · omega
  · intro i2 h2 hl2 hr2
    have ha : i2 ≤ i :=
      (get_le_x_iff t x i hmono hi hxl hxr i2 (Nat.lt_of_succ_lt h2)).mp hl2
    have hb : i < i2 + 1 :=
      (x_lt_get_iff t x i hmono hi hxl hxr (i2 + 1) h2).mp hr2
    omega

/-- Witness for the amended C2 on `t = [0,1,2]`, `x = 3/2`. -/
theorem C2_witness :
    ∃ i : ℕ, ∃ hi : i + 1 < ([0, 1, 2] : List ℚ).length,
      ([0, 1, 2] : List ℚ).get ⟨i, Nat.lt_of_succ_lt hi⟩ ≤ mkRat 3 2 ∧
      mkRat 3 2 < ([0, 1, 2] : List ℚ).get ⟨i + 1, hi⟩ ∧
      find_index ([0, 1, 2] : List ℚ) (mkRat 3 2) = .ok (i : Int) ∧
      ∀ (i2 : ℕ) (h2 : i2 + 1 < ([0, 1, 2] : List ℚ).length),
        ([0, 1, 2] : List ℚ).get ⟨i2, Nat.lt_of_succ_lt h2⟩ ≤ mkRat 3 2 →
        mkRat 3 2 < ([0, 1, 2] : List ℚ).get ⟨i2 + 1, h2⟩ → i2 = i :=
  C2_search_terminates_at_unique_bracket ([0, 1, 2] : List ℚ) (mkRat 3 2)
    (by decide) (by decide) (by decide) (by decide)

/-- The scan loop agrees with the specification's fold, for any starting
state, index and accumulator. -/
theorem detectLoop_foldl {α : Type} [LinearOrder α] (thr : α) :
    ∀ (l : List α) (s : Bool) (idx : Nat) (acc : List Nat),
      (List.foldl (specScanStep thr) (s, idx, acc) l).2.2 = acc ++ detectLoop thr l s idx := by
  intro l
  induction l with
  | nil =>
    intro s idx acc
    simp [detectLoop]
  | cons v rest ihl =>
    intro s idx acc
    by_cases h1 : s = true ∧ thr < v
    · simp only [List.foldl_cons, specScanStep, h1, if_true, detectLoop, ihl]
      simp
    · by_cases h2 : v < thr
      · simp only [List.foldl_cons, specScanStep, h1, if_false, h2, if_true, detectLoop, ihl]
      · simp only [List.foldl_cons, specScanStep, h1, if_false, h2, detectLoop, ihl]

/-- C3: the marker-column scan emits a crossing exactly when the
below-threshold state is armed and the value strictly exceeds the
threshold, re-arming on values strictly below — i.e. it coincides with the
specification's stateful left-to-right scan — and on
`y = [0.1, 0.6, 0.4, 0.7, 0.3]` with threshold `0.5` the emitted crossing
indices are exactly `[1, 3]`. -/
theorem C3_rising_edge_detector :
    detect_crossings ([mkRat 1 10, mkRat 6 10, mkRat 4 10, mkRat 7 10, mkRat 3 10] : List ℚ)
      (mkRat 1 2) = [1, 3] ∧
    ∀ (α : Type) (inst : LinearOrder α) (y : List α) (thr : α),
      @detect_crossings α inst y thr = @specDetect α inst y thr := by
  constructor
  · decide
  · intro α inst y thr
    unfold detect_crossings specDetect
    rw [detectLoop_foldl]
    simp

/-- C4: the flat-argument builder turns `["a,b", "/", "c", "d"]` into
exactly two subplots, `[{x:a, y:b}]` and
`[{x:timestamp, y:c}, {x:timestamp, y:d}]`; in general a `/` token closes
the current subplot and starts a new one, and a token without a comma
becomes the y name with x defaulted to the literal `"timestamp"`. -/
theorem C4_flat_argument_subplots :
    create_subplots_from_arguments ["a,b", "/", "c", "d"] =
      [[[("x", PyVal.str "a"), ("y", PyVal.str "b")]],
       [[("x", PyVal.str "timestamp"), ("y", PyVal.str "c")],
        [("x", PyVal.str "timestamp"), ("y", PyVal.str "d")]]] ∧
    (∀ (rest : List String) (current : List Dict),
      argsLoop ("/" :: rest) current = current :: argsLoop rest []) ∧
    (∀ pair : String, ¬ ',' ∈ pair.data → parsePlotPair pair = ("timestamp", pair)) := by
  refine ⟨rfl, ?_, ?_⟩
  · intro rest current
    simp [argsLoop]
  · intro pair hc
    unfold parsePlotPair pyFind
    rw [if_neg hc]
    simp

/-- Witness for C4: the separator clause and the no-comma clause at
concrete tokens. -/
theorem C4_witness :
    argsLoop ("/" :: ["q"]) [mkArgEntry "p"] = [mkArgEntry "p"] :: argsLoop ["q"] [] ∧
    parsePlotPair "c" = ("timestamp", "c") :=
  ⟨C4_flat_argument_subplots.2.1 ["q"] [mkArgEntry "p"],
   C4_flat_argument_subplots.2.2 "c" (by decide)⟩

/-- Slicing at the first comma index equals take-while / drop-while at the
first comma. -/
theorem indexOf_comma_split :
    ∀ l : List Char, ',' ∈ l →
      l.take (l.indexOf ',') = l.takeWhile (fun c => c != ',') ∧
      l.drop (l.indexOf ',' + 1) = (l.dropWhile (fun c => c != ',')).tail := by
  intro l
  induction l with
  | nil =>
    intro hc
    simp at hc
  | cons c rest ih =>
    intro hc
    by_cases hcc : c = ','
    · subst hcc
      simp [List.indexOf_cons_self, List.takeWhile, List.dropWhile]
    · have hrest : ',' ∈ rest := by
        rcases List.mem_cons.mp hc with hc2 | hc2
        · exact absurd hc2.symm hcc
        · exact hc2
      obtain ⟨h1, h2⟩ := ih hrest
      have hidx : (c :: rest).indexOf ',' = rest.indexOf ',' + 1 :=
        List.indexOf_cons_ne rest hcc
      have hb : (c != ',') = true := by simp [hcc]
      constructor
      · rw [hidx, List.take_succ_cons, h1]
        simp [List.takeWhile, hb]
      · rw [hidx, List.drop_succ_cons, h2]
        simp [List.dropWhile, hb]

/-- C10: a pair token containing a comma is split at its first comma only:
x is the prefix before the first comma and y the entire remainder, so
`"a,b,c"` parses to `{x: "a", y: "b,c"}`. -/
theorem C10_first_comma_split (pair : String) (hc : ',' ∈ pair.data) :
    parsePlotPair pair =
      (⟨pair.data.takeWhile (fun c => c != ',')⟩,
       ⟨(pair.data.dropWhile (fun c => c != ',')).tail⟩) ∧
    parsePlotPair "a,b,c" = ("a", "b,c") ∧
    mkArgEntry "a,b,c" = [("x", PyVal.str "a"), ("y", PyVal.str "b,c")] := by
  refine ⟨?_, rfl, rfl⟩
  obtain ⟨h1, h2⟩ := indexOf_comma_split pair.data hc
  unfold parsePlotPair pyFind
  rw [if_pos hc]
  split_ifs with hneg
  · rw [h1, h2]
  · exfalso
    push_neg at hneg
    omega

/-- Witness for C10 at the token `"a,b,c"`. -/
theorem C10_witness :
    parsePlotPair "a,b,c" =
      (⟨"a,b,c".data.takeWhile (fun c => c != ',')⟩,
       ⟨("a,b,c".data.dropWhile (fun c => c != ',')).tail⟩) ∧
    parsePlotPair "a,b,c" = ("a", "b,c") ∧
    mkArgEntry "a,b,c" = [("x", PyVal.str "a"), ("y", PyVal.str "b,c")] :=
  C10_first_comma_split "a,b,c" (by decide)

/-- C5: the two builders do not produce the same entry shape.  An
argument-mode entry carries only the keys `x` and `y`, a YAML-mode entry
carries `x`, `y`, `table` and `options`; in particular a downstream read
of `entry['options']` (which `main` performs unconditionally at line 398)
finds no such key on an argument-mode entry. -/
theorem C5_entry_shapes_differ :
    (create_subplots_from_arguments ["a,b"]).map (fun sub => sub.map dictKeys) =
      [[["x", "y"]]] ∧
    create_subplots_from_yaml [("plot1", [[("x", PyVal.str "a"), ("y", PyVal.str "b")]])] =
      .ok [[[("x", PyVal.str "a"), ("y", PyVal.str "b"), ("table", PyVal.pynone),
             ("options", PyVal.dict [("x", PyVal.str "a"), ("y", PyVal.str "b")])]]] ∧
    dictKeys (mkArgEntry "a,b") ≠
      dictKeys [("x", PyVal.str "a"), ("y", PyVal.str "b"), ("table", PyVal.pynone),
                ("options", PyVal.dict [("x", PyVal.str "a"), ("y", PyVal.str "b")])] ∧
    dictLookup (mkArgEntry "a,b") "options" = none := by
  refine ⟨rfl, rfl, by decide, rfl⟩

/-- If any entry of the resolution loop fails, the whole loop returns an
error. -/
theorem resolveAll_fails {ι : Type} (ds : DataSource ι) :
    ∀ entries : List (String × String),
      (∃ p ∈ entries, ∃ e, resolveEntry ds p.1 p.2 = .error e) →
      ∃ e2, resolveAll ds entries = .error e2 := by
  intro entries
  induction entries with
  | nil =>
    intro h
    obtain ⟨p, hp, _⟩ := h
    simp at hp
  | cons a rest ih =>
    intro h
    obtain ⟨ax, ay⟩ := a
    obtain ⟨p, hp, e, he⟩ := h
    cases hE : resolveEntry ds ax ay with
    | error e1 => exact ⟨e1, by simp [resolveAll, hE]⟩
    | ok r =>
      rcases List.mem_cons.mp hp with hpa | hpr
      · rw [hpa] at he
        rw [hE] at he
        simp at he
      · obtain ⟨e2, h2⟩ := ih ⟨p, hpr, e, he⟩
        exact ⟨e2, by simp [resolveAll, hE, h2]⟩

/-- C6: a plot entry whose column resolution fails aborts the session
before the gather and render stages run (the result is an error whatever
those collaborators would do); an x failure raises a `ValueError` whose
message names both the x name and the y name it was being resolved for,
and a y failure (with x resolved) raises a `ValueError` naming the y
name. -/
theorem C6_resolution_failure_is_fatal {ι γ δ : Type}
    (ds : DataSource ι) (entries : List (String × String)) (x y : String) :
    ((∃ p ∈ entries, ∃ e, resolveEntry ds p.1 p.2 = .error e) →
      ∃ m : PyErr, ∀ (gatherStage : List (ι × ι) → γ) (renderStage : γ → δ),
        plotSession ds entries gatherStage renderStage = .error m) ∧
    (resolveXident ds x y = none →
      ∃ m : String, resolveEntry ds x y = .error (.valueError m) ∧
        List.IsInfix x.data m.data ∧ List.IsInfix y.data m.data) ∧
    (∀ xi : ι, resolveXident ds x y = some xi → ds.find_column_identifier y = none →
      ∃ m : String, resolveEntry ds x y = .error (.valueError m) ∧
        List.IsInfix y.data m.data) := by
  refine ⟨?_, ?_, ?_⟩
  · intro h
    obtain ⟨e2, h2⟩ := resolveAll_fails ds entries h
    exact ⟨e2, fun gatherStage renderStage => by simp [plotSession, h2]⟩
  · intro h
    refine ⟨"failed to find x data for " ++ x ++ " (with y of " ++ y ++ ") ", ?_, ?_, ?_⟩
    · simp [resolveEntry, h]
    · exact ⟨"failed to find x data for ".data, (" (with y of " ++ y ++ ") ").data, by
        simp [List.append_assoc]⟩
    · exact ⟨("failed to find x data for " ++ x ++ " (with y of ").data, ") ".data, by
        simp [List.append_assoc]⟩
  · intro xi hxi hy
    refine ⟨"failed to find y data for " ++ y, ?_, ?_⟩
    · simp [resolveEntry, hxi, hy]
    · exact ⟨"failed to find y data for ".data, [], by simp⟩

/-- Witness for C6: with a data source that resolves nothing, the session
over the single entry `(x = a, y = b)` aborts for every gather and render
collaborator. -/
theorem C6_witness :
    ∃ m : PyErr, ∀ (gatherStage : List (Nat × Nat) → Nat) (renderStage : Nat → Nat),
      plotSession (DataSource.mk (fun _ => none) (fun _ => none)) [("a", "b")]
        gatherStage renderStage = .error m :=
  (C6_resolution_failure_is_fatal (DataSource.mk (fun _ => none) (fun _ => none))
      [("a", "b")] "a" "b").1
    ⟨("a", "b"), by simp, PyErr.valueError "failed to find x data for a (with y of b) ", rfl⟩

/-- C7: a literal `"timestamp"` x name is resolved through the
timestamp-companion lookup keyed on the entry's y name, every other x name
through the plain lookup; for a literal `"timestamp"` x the result depends
only on the timestamp-companion lookup, never on the plain lookup. -/
theorem C7_timestamp_companion_dispatch {ι : Type} (ds ds2 : DataSource ι) (x y : String) :
    (x = "timestamp" → resolveXident ds x y = ds.find_column_timestamp_identifier y) ∧
    (x ≠ "timestamp" → resolveXident ds x y = ds.find_column_identifier x) ∧
    (x = "timestamp" →
      ds.find_column_timestamp_identifier = ds2.find_column_timestamp_identifier →
      resolveXident ds x y = resolveXident ds2 x y) := by
  refine ⟨?_, ?_, ?_⟩
  · intro h
    simp [resolveXident, h]
  · intro h
    simp [resolveXident, h]
  · intro h heq
    simp [resolveXident, h, heq]

/-- Witness for C7: the dispatch at `x = "timestamp"` and at a plain x
name, on a concrete data source over `Nat` identifiers. -/
theorem C7_witness :
    resolveXident (DataSource.mk (fun _ => (none : Option Nat)) (fun _ => some 7))
        "timestamp" "v" =
      (DataSource.mk (fun _ => (none : Option Nat))
        (fun _ => some 7)).find_column_timestamp_identifier "v" ∧
    resolveXident (DataSource.mk (fun _ => (some 3 : Option Nat)) (fun _ => some 7))
        "other" "v" =
      (DataSource.mk (fun _ => (some 3 : Option Nat))
        (fun _ => some 7)).find_column_identifier "other" :=
  ⟨(C7_timestamp_companion_dispatch
      (DataSource.mk (fun _ => (none : Option Nat)) (fun _ => some 7))
      (DataSource.mk (fun _ => (none : Option Nat)) (fun _ => some 7)) "timestamp" "v").1 rfl,
   (C7_timestamp_companion_dispatch
      (DataSource.mk (fun _ => (some 3 : Option Nat)) (fun _ => some 7))
      (DataSource.mk (fun _ => (some 3 : Option Nat)) (fun _ => some 7)) "other" "v").2.1
     (by decide)⟩

/-- The only error `yamlEntryToPlot` can raise is the `KeyError` for the
missing required key `y`. -/
theorem yamlEntryToPlot_error_val (entry : Dict) (e : PyErr)
    (h : yamlEntryToPlot entry = .error e) : e = .keyError "y" := by
  unfold yamlEntryToPlot at h
  cases hy : dictLookup entry "y" with
  | none =>
    rw [hy] at h
    injection h with h2
    exact h2.symm
  | some yv =>
    rw [hy] at h
    simp at h

/-- An entry without the key `y` makes its subplot's construction fail. -/
theorem yamlSubplot_fails :
    ∀ (entries : List Dict) (entry : Dict), entry ∈ entries →
      dictLookup entry "y" = none → ∃ e, yamlSubplot entries = .error e := by
  intro entries
  induction entries with
  | nil =>
    intro entry he _
    simp at he
  | cons a rest ih =>
    intro entry he hy
    cases hE : yamlEntryToPlot a with
    | error e1 => exact ⟨e1, by simp [yamlSubplot, hE]⟩
    | ok pe =>
      rcases List.mem_cons.mp he with hea | her
      · rw [hea] at hy
        unfold yamlEntryToPlot at hE
        rw [hy] at hE
        simp at hE
      · obtain ⟨e2, h2⟩ := ih entry her hy
        exact ⟨e2, by simp [yamlSubplot, hE, h2]⟩

/-- The only error a subplot construction can raise is the `KeyError` for
`y`. -/
theorem yamlSubplot_error_val :
    ∀ (entries : List Dict) (e : PyErr), yamlSubplot entries = .error e →
      e = .keyError "y" := by
  intro entries
  induction entries with
  | nil =>
    intro e h
    simp [yamlSubplot] at h
  | cons a rest ih =>
    intro e h
    cases hE : yamlEntryToPlot a with
    | error e1 =>
      simp [yamlSubplot, hE] at h
      exact h ▸ yamlEntryToPlot_error_val a e1 hE
    | ok pe =>
      cases hR : yamlSubplot rest with
      | error e2 =>
        simp [yamlSubplot, hE, hR] at h
        exact h ▸ ih e2 hR
      | ok s2 =>
        simp [yamlSubplot, hE, hR] at h

/-- A missing `y` anywhere in the declarative tree makes the whole spec
build fail. -/
theorem create_yaml_fails :
    ∀ (plots : List (String × List Dict)) (sub : String × List Dict) (entry : Dict),
      sub ∈ plots → entry ∈ sub.2 → dictLookup entry "y" = none →
      ∃ e, create_subplots_from_yaml plots = .error e := by
  intro plots
  induction plots with
  | nil =>
    intro sub entry hs _ _
    simp at hs
  | cons a rest ih =>
    intro sub entry hs he hy
    obtain ⟨aname, aentries⟩ := a
    cases hE : yamlSubplot aentries with
    | error e1 => exact ⟨e1, by simp [create_subplots_from_yaml, hE]⟩
    | ok s1 =>
      rcases List.mem_cons.mp hs with hsa | hsr
      · obtain ⟨e0, h0⟩ := yamlSubplot_fails aentries entry (by rw [hsa] at he; exact he) hy
        rw [h0] at hE
        simp at hE
      · obtain ⟨e2, h2⟩ := ih sub entry hsr he hy
        exact ⟨e2, by simp [create_subplots_from_yaml, hE, h2]⟩

/-- The only error the declarative spec build can raise is the `KeyError`
for `y`. -/
theorem create_yaml_error_val :
    ∀ (plots : List (String × List Dict)) (e : PyErr),
      create_subplots_from_yaml plots = .error e → e = .keyError "y" := by
  intro plots
  induction plots with
  | nil =>
    intro e h
    simp [create_subplots_from_yaml] at h
  | cons a rest ih =>
    intro e h
    obtain ⟨aname, aentries⟩ := a
    cases hE : yamlSubplot aentries with
    | error e1 =>
      simp [create_subplots_from_yaml, hE] at h
      exact h ▸ yamlSubplot_error_val aentries e1 hE
    | ok s1 =>
      cases hR : create_subplots_from_yaml rest with
      | error e2 =>
        simp [create_subplots_from_yaml, hE, hR] at h
        exact h ▸ ih e2 hR
      | ok s2 =>
        simp [create_subplots_from_yaml, hE, hR] at h

/-- C8: a declarative spec containing an entry without the required key
`y` fails fatally inside `create_subplots_from_yaml` with the `KeyError`
for `y`, and `main` (in YAML mode) propagates exactly that error whatever
the data-source constructor would do — the spec build runs before the
data source is opened, so no table is ever accessed. -/
theorem C8_missing_y_fatal {δ : Type} (yaml_plots : List (String × List Dict))
    (sub : String × List Dict) (entry : Dict)
    (hs : sub ∈ yaml_plots) (he : entry ∈ sub.2) (hy : dictLookup entry "y" = none) :
    create_subplots_from_yaml yaml_plots = .error (.keyError "y") ∧
    ∀ open_data_source : List (List Dict) → Except PyErr δ,
      mainUpToDataSource none yaml_plots open_data_source = .error (.keyError "y") := by
  obtain ⟨e, hE⟩ := create_yaml_fails yaml_plots sub entry hs he hy
  have hval : e = .keyError "y" := create_yaml_error_val yaml_plots e hE
  subst hval
  refine ⟨hE, ?_⟩
  intro open_data_source
  unfold mainUpToDataSource buildPlotsStage
  rw [hE]

/-- Witness for C8: one subplot whose single entry has an `x` key but no
`y` key. -/
theorem C8_witness :
    create_subplots_from_yaml [("p1", [[("x", PyVal.str "a")]])] = .error (.keyError "y") ∧
    ∀ open_data_source : List (List Dict) → Except PyErr Nat,
      mainUpToDataSource none [("p1", [[("x", PyVal.str "a")]])] open_data_source =
        .error (.keyError "y") :=
  C8_missing_y_fatal [("p1", [[("x", PyVal.str "a")]])] ("p1", [[("x", PyVal.str "a")]])
    [("x", PyVal.str "a")] (by simp) (by simp) rfl

/-- C9: `gather_new_data` writes only the `data` field: the entry list
keeps its length, every other field of every entry is unchanged, and each
entry's `data` becomes exactly the gather result for its own identifiers
and data source. -/
theorem C9_gather_writes_only_data {ι κ ο σ δ : Type} (gatherFn : σ → ι → ι → Bool → δ)
    (plot_info : List (PlotEntry ι κ ο σ δ)) (animate : Bool) :
    (gather_new_data gatherFn plot_info animate).length = plot_info.length ∧
    (gather_new_data gatherFn plot_info animate).map PlotEntry.x =
      plot_info.map PlotEntry.x ∧
    (gather_new_data gatherFn plot_info animate).map PlotEntry.y =
      plot_info.map PlotEntry.y ∧
    (gather_new_data gatherFn plot_info animate).map PlotEntry.xident =
      plot_info.map PlotEntry.xident ∧
    (gather_new_data gatherFn plot_info animate).map PlotEntry.yident =
      plot_info.map PlotEntry.yident ∧
    (gather_new_data gatherFn plot_info animate).map PlotEntry.axis =
      plot_info.map PlotEntry.axis ∧
    (gather_new_data gatherFn plot_info animate).map PlotEntry.options =
      plot_info.map PlotEntry.options ∧
    (gather_new_data gatherFn plot_info animate).map PlotEntry.data_source =
      plot_info.map PlotEntry.data_source ∧
    (gather_new_data gatherFn plot_info animate).map PlotEntry.data =
      plot_info.map (fun e => some (gatherFn e.data_source e.xident e.yident animate)) := by
  unfold gather_new_data
  refine ⟨by simp, ?_, ?_, ?_, ?_, ?_, ?_, ?_, ?_⟩ <;> (rw [List.map_map]; rfl)

/-- C1: on `time_array = [0,1,2,3,4]`, the source's search loop raises
`IndexError` for the boundary targets `4.5` (it walks right to index 4 and
evaluates `t[5]`) and `-1` (it walks left through Python's negative
wrap-around down to `t[-6]`), instead of returning the clamped boundary
indices 4 and 0 that the specification requires; the interior target `2.3`
does return index 2 as specified.  This substantiates the spec's own note
that the out-of-range boundary access is a bug in the code. -/
theorem C1_boundary_behavior :
    find_index ([0, 1, 2, 3, 4] : List ℚ) (mkRat 9 2) = .error .indexOutOfRange ∧
    find_index ([0, 1, 2, 3, 4] : List ℚ) (-1) = .error .indexOutOfRange ∧
    find_index ([0, 1, 2, 3, 4] : List ℚ) (mkRat 23 10) = .ok 2 := by
  refine ⟨?_, ?_, ?_⟩ <;> decide
